import Mathlib

/-!
Verification of the error taxonomy of the nextest runner core
(`nextest-runner/src/errors.rs`), as a shallow embedding in Lean 4.

Rust `Display` implementations become `display : ε → String` functions,
`std::error::Error::source` implementations become `source : ε → Option σ`
functions, and external error types (`std::io::Error`, `config::ConfigError`,
`guppy::Error`, `toml::de::Error`, `quick_junit::Error`, `target_spec` errors)
are modelled as opaque message-carrying records, since only their identity and
their own `Display` output matter to the properties proved here.

UTF-8 paths (`camino::Utf8PathBuf`) are modelled as `String`.
-/

namespace Nextest

/-- Substring containment: `needle` occurs contiguously inside `hay`. -/
def StrContains (hay needle : String) : Prop :=
  ∃ a b : String, hay = a ++ needle ++ b

theorem strContains_of_eq {hay a needle b : String}
    (h : hay = a ++ needle ++ b) : StrContains hay needle :=
  ⟨a, b, h⟩

/-- Model of `camino::Utf8PathBuf`: a UTF-8 filesystem path is a string. -/
abbrev Utf8PathBuf := String

/-- Model of `std::io::Error`: an opaque OS error carrying a message. -/
structure IoError where
  message : String
deriving Repr, DecidableEq

/-- Display of the modelled `std::io::Error`. -/
def IoError.display (e : IoError) : String := e.message

/-- Model of `config::ConfigError`: an opaque configuration-library error. -/
structure ConfigError where
  message : String
deriving Repr, DecidableEq

/-- Model of `guppy::Error`: an opaque package-graph error. -/
structure GuppyError where
  message : String
deriving Repr, DecidableEq

/-- Model of `quick_junit::Error`: an opaque JUnit-serialization error. -/
structure QuickJunitError where
  message : String
deriving Repr, DecidableEq

/-- Model of `toml::de::Error`: an opaque TOML deserialization error. -/
structure TomlDeError where
  message : String
deriving Repr, DecidableEq

/-- Display of the modelled `toml::de::Error`. -/
def TomlDeError.display (e : TomlDeError) : String := e.message

/-- Model of `target_spec::Error`: an opaque target-spec error. -/
structure TargetSpecError where
  message : String
deriving Repr, DecidableEq

/-- Display of the modelled `target_spec::Error`. -/
def TargetSpecError.display (e : TargetSpecError) : String := e.message

/-- Model of `target_spec::errors::TripleParseError`. -/
structure TripleParseError where
  message : String
deriving Repr, DecidableEq

/-- Display of the modelled `TripleParseError`. -/
def TripleParseError.display (e : TripleParseError) : String := e.message

/-! ### `ConfigParseError` (errors.rs lines 14-46) -/

/-- An error that occurred while parsing the config (struct `ConfigParseError`). -/
structure ConfigParseError where
  config_file : Utf8PathBuf
  err : ConfigError

/-- Constructor `ConfigParseError::new`. -/
def ConfigParseError.new (config_file : Utf8PathBuf) (err : ConfigError) :
    ConfigParseError :=
  { config_file, err }

/-- `impl fmt::Display for ConfigParseError`. -/
def ConfigParseError.display (e : ConfigParseError) : String :=
  "failed to parse nextest config at `" ++ e.config_file ++ "`"

/-- `impl error::Error for ConfigParseError`: `source` returns the wrapped error. -/
def ConfigParseError.source (e : ConfigParseError) : Option ConfigError :=
  some e.err

/-! ### `ProfileNotFound` (errors.rs lines 48-80) -/

/-- An error which indicates that a profile was requested but not known
to nextest (struct `ProfileNotFound`). -/
structure ProfileNotFound where
  profile : String
  all_profiles : List String

/-- Constructor `ProfileNotFound::new`: collects the known profile names and
sorts them (`all_profiles.sort_unstable()`); an unstable sort over a linear
order yields the unique ≤-sorted permutation, modelled by insertion sort. -/
def ProfileNotFound.new (profile : String) (all_profiles : List String) :
    ProfileNotFound :=
  { profile, all_profiles := all_profiles.insertionSort (· ≤ ·) }

/-- `impl fmt::Display for ProfileNotFound`:
`"profile '{}' not found (known profiles: {})"` with the profile list joined
by `", "`. -/
def ProfileNotFound.display (e : ProfileNotFound) : String :=
  "profile \x27" ++ e.profile ++ "\x27 not found (known profiles: " ++
    String.intercalate ", " e.all_profiles ++ ")"

/-! ### `FromMessagesError` (errors.rs lines 200-231) -/

/-- An error that occurs in `RustTestArtifact::from_messages`
(enum `FromMessagesError`). -/
inductive FromMessagesError where
  /-- An error occurred while reading Cargo's JSON messages. -/
  | ReadMessages (error : IoError)
  /-- An error occurred while querying the package graph. -/
  | PackageGraph (error : GuppyError)
deriving Repr, DecidableEq

/-- `impl fmt::Display for FromMessagesError`. -/
def FromMessagesError.display : FromMessagesError → String
  | .ReadMessages _ => "error reading Cargo JSON messages"
  | .PackageGraph _ => "error querying package graph"

/-- The dynamic type behind `FromMessagesError`'s `dyn Error` source. -/
inductive FromMessagesSource where
  | ofRead (error : IoError)
  | ofGraph (error : GuppyError)
deriving Repr, DecidableEq

/-- `impl error::Error for FromMessagesError`: `source` returns the wrapped
error in both variants. -/
def FromMessagesError.source : FromMessagesError → Option FromMessagesSource
  | .ReadMessages error => some (.ofRead error)
  | .PackageGraph error => some (.ofGraph error)

/-! ### `ParseTestListError` (errors.rs lines 233-298) -/

/-- An error that occurs while parsing test list output
(enum `ParseTestListError`). -/
inductive ParseTestListError where
  /-- Running a command to gather the list of tests failed. -/
  | Command (command : String) (error : IoError)
  /-- An error occurred while parsing a line in the test output;
  carries a descriptive message and the full output. -/
  | ParseLine (message : String) (full_output : String)
deriving Repr, DecidableEq

/-- Constructor `ParseTestListError::command`. -/
def ParseTestListError.command (command : String) (error : IoError) :
    ParseTestListError :=
  .Command command error

/-- Constructor `ParseTestListError::parse_line`. -/
def ParseTestListError.parse_line (message : String) (full_output : String) :
    ParseTestListError :=
  .ParseLine message full_output

/-- `impl fmt::Display for ParseTestListError`. -/
def ParseTestListError.display : ParseTestListError → String
  | .Command command _ => "running \x27" ++ command ++ "\x27 failed"
  | .ParseLine message full_output =>
      message ++ "\nfull output:\n" ++ full_output

/-- `impl error::Error for ParseTestListError`: only the `Command` variant has
a source; `ParseLine` returns `None`. -/
def ParseTestListError.source : ParseTestListError → Option IoError
  | .Command _ error => some error
  | .ParseLine _ _ => none

/-- True iff this is the launch/command failure class (`Command` variant). -/
def ParseTestListError.isCommandFailure : ParseTestListError → Bool
  | .Command _ _ => true
  | .ParseLine _ _ => false

/-- True iff this is the parse failure class (`ParseLine` variant). -/
def ParseTestListError.isParseFailure : ParseTestListError → Bool
  | .Command _ _ => false
  | .ParseLine _ _ => true

/-! ### `JunitError` and `WriteEventError` (errors.rs lines 333-407) -/

/-- An error that occurred while producing JUnit XML (struct `JunitError`). -/
structure JunitError where
  err : QuickJunitError
deriving Repr, DecidableEq

/-- Constructor `JunitError::new`. -/
def JunitError.new (err : QuickJunitError) : JunitError :=
  { err }

/-- `impl fmt::Display for JunitError`: the formatter is ignored and nothing
is written, so the rendered message is the empty string. -/
def JunitError.display (_ : JunitError) : String := ""

/-- `impl error::Error for JunitError`: `source` returns the wrapped
`quick_junit::Error`. -/
def JunitError.source (e : JunitError) : Option QuickJunitError :=
  some e.err

/-- An error that occurs while writing an event (enum `WriteEventError`). -/
inductive WriteEventError where
  /-- An error occurred while writing the event to the provided output. -/
  | Io (error : IoError)
  /-- An error occurred while operating on the file system. -/
  | Fs (file : Utf8PathBuf) (error : IoError)
  /-- An error occurred while producing JUnit XML. -/
  | Junit (file : Utf8PathBuf) (error : JunitError)
deriving Repr, DecidableEq

/-- `impl fmt::Display for WriteEventError`. -/
def WriteEventError.display : WriteEventError → String
  | .Io _ => "error writing to output"
  | .Fs file _ => "error operating on path " ++ file
  | .Junit file _ => "error writing JUnit output to " ++ file

/-- The dynamic type behind `WriteEventError`'s `dyn Error` source. -/
inductive WriteEventSource where
  | ofIoErr (error : IoError)
  | ofJunit (error : JunitError)
deriving Repr, DecidableEq

/-- `impl error::Error for WriteEventError`: every variant has a source. -/
def WriteEventError.source : WriteEventError → Option WriteEventSource
  | .Io error => some (.ofIoErr error)
  | .Fs _ error => some (.ofIoErr error)
  | .Junit _ error => some (.ofJunit error)

/-! ### `TargetRunnerError` (errors.rs lines 409-509) -/

/-- An error occurred determining the target runner (enum `TargetRunnerError`).
`std::path::PathBuf` in `NonUtf8Path` is modelled as `String`, standing for
the lossy display form produced by `path.display()`. -/
inductive TargetRunnerError where
  /-- Failed to determine the host triple. -/
  | UnknownHostPlatform (error : TargetSpecError)
  /-- An environment variable contained non-utf8 content. -/
  | InvalidEnvironmentVar (key : String)
  /-- An environment variable or config key was found that matches the target
  triple, but it didn't actually contain a binary. -/
  | BinaryNotSpecified (key : String) (value : String)
  /-- Failed to retrieve a directory. -/
  | UnableToReadDir (error : IoError)
  /-- Failed to canonicalize a path. -/
  | FailedPathCanonicalization (path : Utf8PathBuf) (error : IoError)
  /-- A path was non-utf8. -/
  | NonUtf8Path (path : String)
  /-- Failed to read config file. -/
  | FailedToReadConfig (path : Utf8PathBuf) (error : IoError)
  /-- Failed to deserialize config file. -/
  | FailedToParseConfig (path : Utf8PathBuf) (error : TomlDeError)
  /-- Failed to parse the specified target triple. -/
  | FailedToParseTargetTriple (triple : String) (error : TripleParseError)
deriving Repr, DecidableEq

/-- `impl fmt::Display for TargetRunnerError`. -/
def TargetRunnerError.display : TargetRunnerError → String
  | .UnknownHostPlatform error =>
      "unable to determine host triple: " ++ error.display
  | .InvalidEnvironmentVar key =>
      "environment variable \x27" ++ key ++ "\x27 contained non-utf8 data"
  | .BinaryNotSpecified key value =>
      "runner \x27" ++ key ++ "\x27 = \x27" ++ value ++
        "\x27 did not contain a runner binary"
  | .UnableToReadDir error =>
      "unable to read directory: " ++ error.display
  | .FailedPathCanonicalization path error =>
      "failed to canonicalize path \x27" ++ path ++ "\x27: " ++ error.display
  | .NonUtf8Path path =>
      "path \x27" ++ path ++ "\x27 is non-utf8"
  | .FailedToReadConfig path error =>
      "failed to read \x27" ++ path ++ "\x27: " ++ error.display
  | .FailedToParseConfig path error =>
      "failed to parse config \x27" ++ path ++ "\x27: " ++ error.display
  | .FailedToParseTargetTriple triple error =>
      "failed to parse triple \x27" ++ triple ++ "\x27: " ++ error.display

/-- The dynamic type behind `TargetRunnerError`'s `dyn Error` source. -/
inductive TargetRunnerSource where
  | ofTargetSpec (error : TargetSpecError)
  | ofIoErr (error : IoError)
  | ofToml (error : TomlDeError)
  | ofTriple (error : TripleParseError)
deriving Repr, DecidableEq

/-- `impl error::Error for TargetRunnerError`: the variants wrapping an
underlying error expose it via `source`; the rest return `None`. -/
def TargetRunnerError.source : TargetRunnerError → Option TargetRunnerSource
  | .UnknownHostPlatform error => some (.ofTargetSpec error)
  | .UnableToReadDir error => some (.ofIoErr error)
  | .FailedPathCanonicalization _ error => some (.ofIoErr error)
  | .FailedToReadConfig _ error => some (.ofIoErr error)
  | .FailedToParseConfig _ error => some (.ofToml error)
  | .FailedToParseTargetTriple _ error => some (.ofTriple error)
  | _ => none

/-! ### Target-runner resolution (spec-modelled) -/

/-- Helper for `splitWhitespace`: walks the characters, accumulating the
current (reversed) token, emitting it at each whitespace run or at the end. -/
def splitWhitespaceAux : List Char → List Char → List String
  | [], acc => if acc.isEmpty then [] else [String.mk acc.reverse]
  | c :: cs, acc =>
      if c.isWhitespace then
        if acc.isEmpty then splitWhitespaceAux cs []
        else String.mk acc.reverse :: splitWhitespaceAux cs []
      else splitWhitespaceAux cs (c :: acc)

/-- Whitespace-separated tokens of a string, empties discarded, as Rust's
`str::split_whitespace` produces them. -/
def splitWhitespace (s : String) : List String :=
  splitWhitespaceAux s.data []

/-- Modelled from the spec: the resolved invocation wrapper (`TargetRunner`):
"a resolved invocation wrapper (command + arguments)". The type itself lives
in `target_runner.rs`, which is not under `src/`. -/
structure TargetRunner where
  binary : String
  args : List String
deriving Repr, DecidableEq

/-- Modelled from the spec: the step of target-runner resolution that turns a
matched environment-variable or config-key value into a runner command lives
in `target_runner.rs`, which is not under `src/`. Per the spec (§4.1), "if a
match is found, its value must itself resolve to a non-empty binary path plus
arguments — a match that resolves to an empty command is an error
(BinaryNotSpecified), not treated as none": the value is split on whitespace;
no token at all is the `BinaryNotSpecified` error carrying the key and the
value that was read; otherwise the first token is the binary and the rest are
its arguments. -/
def parse_runner (key value : String) :
    Except TargetRunnerError TargetRunner :=
  match splitWhitespace value with
  | [] => .error (.BinaryNotSpecified key value)
  | binary :: args => .ok { binary, args }

/-- Modelled from the spec: resolution over an environment/config snapshot,
abstracted to its outcome. `none` means no environment variable or config key
matched the triple, which resolves to direct invocation; `some (key, value)`
means a match was found, and its value must parse to a runner command. -/
def resolve_runner (lookup : Option (String × String)) :
    Except TargetRunnerError (Option TargetRunner) :=
  match lookup with
  | none => .ok none
  | some (key, value) => (parse_runner key value).map some

/-! ### Parse errors for the string-encoded small surfaces
(errors.rs lines 82-161) -/

/-- Modelled from the spec: the output-display level enum lives in
`reporter.rs`, which is not under `src/`; the spec only requires a closed set
of values whose names are enumerated by parse errors. -/
inductive TestOutputDisplay where
  | Immediate
  | ImmediateFinal
  | Final
  | Never
deriving Repr, DecidableEq

/-- Modelled from the spec: `TestOutputDisplay::variants()` lives in
`reporter.rs`, which is not under `src/`; per the spec (§6), the valid set is
enumerated "sorted/deterministic", so the variant strings are listed in
≤-sorted order. -/
def TestOutputDisplay.variants : List String :=
  ["final", "immediate", "immediate-final", "never"]

/-- Error returned while parsing a `TestOutputDisplay` value from a string
(struct `TestOutputDisplayParseError`). -/
structure TestOutputDisplayParseError where
  input : String
deriving Repr, DecidableEq

/-- Constructor `TestOutputDisplayParseError::new`. -/
def TestOutputDisplayParseError.new (input : String) :
    TestOutputDisplayParseError :=
  { input }

/-- `impl fmt::Display for TestOutputDisplayParseError`. -/
def TestOutputDisplayParseError.display (e : TestOutputDisplayParseError) :
    String :=
  "unrecognized value for test output display: " ++ e.input ++
    "\n(known values: " ++ String.intercalate ", " TestOutputDisplay.variants ++
    ")"

/-- Modelled from the spec: parsing an output-display level from a string
(`FromStr for TestOutputDisplay` lives in `reporter.rs`, not under `src/`);
each variant string parses to its variant, anything else is rejected with a
`TestOutputDisplayParseError` carrying the offending input. -/
def TestOutputDisplay.from_str (s : String) :
    Except TestOutputDisplayParseError TestOutputDisplay :=
  if s = "final" then .ok .Final
  else if s = "immediate" then .ok .Immediate
  else if s = "immediate-final" then .ok .ImmediateFinal
  else if s = "never" then .ok .Never
  else .error (TestOutputDisplayParseError.new s)

/-- Modelled from the spec: the status level enum lives in `reporter.rs`,
which is not under `src/`. -/
inductive StatusLevel where
  | None
  | Fail
  | Retry
  | Pass
  | Skip
  | All
deriving Repr, DecidableEq

/-- Modelled from the spec: `StatusLevel::variants()` lives in `reporter.rs`,
which is not under `src/`; the valid set is enumerated in ≤-sorted order per
the spec (§6). -/
def StatusLevel.variants : List String :=
  ["all", "fail", "none", "pass", "retry", "skip"]

/-- Error returned while parsing a `StatusLevel` value from a string
(struct `StatusLevelParseError`). -/
structure StatusLevelParseError where
  input : String
deriving Repr, DecidableEq

/-- Constructor `StatusLevelParseError::new`. -/
def StatusLevelParseError.new (input : String) : StatusLevelParseError :=
  { input }

/-- `impl fmt::Display for StatusLevelParseError`. -/
def StatusLevelParseError.display (e : StatusLevelParseError) : String :=
  "unrecognized value for status-level: " ++ e.input ++
    "\n(known values: " ++ String.intercalate ", " StatusLevel.variants ++ ")"

/-- Modelled from the spec: parsing a status level from a string (`FromStr
for StatusLevel` lives in `reporter.rs`, not under `src/`). -/
def StatusLevel.from_str (s : String) :
    Except StatusLevelParseError StatusLevel :=
  if s = "all" then .ok .All
  else if s = "fail" then .ok .Fail
  else if s = "none" then .ok .None
  else if s = "pass" then .ok .Pass
  else if s = "retry" then .ok .Retry
  else if s = "skip" then .ok .Skip
  else .error (StatusLevelParseError.new s)

/-- Modelled from the spec: the ignored-test handling mode enum lives in
`test_filter.rs`, which is not under `src/`. -/
inductive RunIgnored where
  | Default
  | IgnoredOnly
  | All
deriving Repr, DecidableEq

/-- Modelled from the spec: `RunIgnored::variants()` lives in
`test_filter.rs`, which is not under `src/`; the valid set is enumerated in
≤-sorted order per the spec (§6). -/
def RunIgnored.variants : List String :=
  ["all", "default", "ignored-only"]

/-- An error that occurs while parsing a `RunIgnored` value from a string
(struct `RunIgnoredParseError`). -/
structure RunIgnoredParseError where
  input : String
deriving Repr, DecidableEq

/-- Constructor `RunIgnoredParseError::new`. -/
def RunIgnoredParseError.new (input : String) : RunIgnoredParseError :=
  { input }

/-- `impl fmt::Display for RunIgnoredParseError`. -/
def RunIgnoredParseError.display (e : RunIgnoredParseError) : String :=
  "unrecognized value for run-ignored: " ++ e.input ++
    "\n(known values: " ++ String.intercalate ", " RunIgnored.variants ++ ")"

/-- Modelled from the spec: parsing an ignored-test handling mode from a
string (`FromStr for RunIgnored` lives in `test_filter.rs`, not under
`src/`). -/
def RunIgnored.from_str (s : String) :
    Except RunIgnoredParseError RunIgnored :=
  if s = "all" then .ok .All
  else if s = "default" then .ok .Default
  else if s = "ignored-only" then .ok .IgnoredOnly
  else .error (RunIgnoredParseError.new s)

/-! ### `PartitionerBuilderParseError` and partitioner construction
(errors.rs lines 163-198) -/

/-- An error that occurs while parsing a `PartitionerBuilder` input
(struct `PartitionerBuilderParseError`); `Cow` strings become `String`. -/
structure PartitionerBuilderParseError where
  expected_format : Option String
  message : String
deriving Repr, DecidableEq

/-- Constructor `PartitionerBuilderParseError::new`. -/
def PartitionerBuilderParseError.new (expected_format : Option String)
    (message : String) : PartitionerBuilderParseError :=
  { expected_format, message }

/-- `impl fmt::Display for PartitionerBuilderParseError`. -/
def PartitionerBuilderParseError.display (e : PartitionerBuilderParseError) :
    String :=
  match e.expected_format with
  | some format =>
      "partition must be in the format \"" ++ format ++ "\":\n" ++ e.message
  | none => e.message

/-- Modelled from the spec: the documented partition-specification grammar
(§4.3: "a partition specification string of the documented grammar (e.g.
shard-index/shard-count)"). -/
def partitionExpectedFormat : String := "shard-index/shard-count"

/-- Helper for `splitSlash`: splits the characters at every `/`. -/
def splitSlashAux : List Char → List Char → List String
  | [], acc => [String.mk acc.reverse]
  | c :: cs, acc =>
      if c = '/' then String.mk acc.reverse :: splitSlashAux cs []
      else splitSlashAux cs (c :: acc)

/-- The `/`-separated fields of a string. -/
def splitSlash (s : String) : List String :=
  splitSlashAux s.data []

/-- Helper for `decDigits`: accumulates the value of a decimal numeral,
failing at the first non-digit character. -/
def decDigitsAux : List Char → Nat → Option Nat
  | [], acc => some acc
  | c :: cs, acc =>
      if c.isDigit then decDigitsAux cs (acc * 10 + (c.toNat - 48))
      else none

/-- The value of a nonempty all-digit decimal numeral, `none` otherwise. -/
def decDigits : List Char → Option Nat
  | [] => none
  | c :: cs => decDigitsAux (c :: cs) 0

/-- Modelled from the spec: a count-based partition specification — shard
index `i` of `n` total shards (§3, `PartitionSpec`); `partition.rs` is not
under `src/`. -/
structure PartitionerBuilder where
  shard_index : Nat
  shard_count : Nat
deriving Repr, DecidableEq

/-- Modelled from the spec: parsing the grammar `shard-index/shard-count`
(e.g. `1/3`): exactly two `/`-separated fields, both nonempty decimal
numerals, with the shard index below the shard count (the spec's shards for
count 3 are `0/3`, `1/3`, `2/3`). -/
def parsePartitionSpec (s : String) : Option PartitionerBuilder :=
  match splitSlash s with
  | [i, n] =>
      match decDigits i.data, decDigits n.data with
      | some shard_index, some shard_count =>
          if shard_index < shard_count then some { shard_index, shard_count }
          else none
      | _, _ => none
  | _ => none

/-- Modelled from the spec: construction of a partitioner builder from the
specification string (`FromStr for PartitionerBuilder` lives in
`partition.rs`, which is not under `src/`). Per the spec (§4.3), "Malformed
specification strings fail fast at construction with an error naming the
expected grammar and the offending input, never silently defaulting to
include everything or include nothing". -/
def PartitionerBuilder.from_str (s : String) :
    Except PartitionerBuilderParseError PartitionerBuilder :=
  match parsePartitionSpec s with
  | some pb => .ok pb
  | none =>
      .error (PartitionerBuilderParseError.new (some partitionExpectedFormat)
        ("invalid partition specification \x27" ++ s ++ "\x27"))

end Nextest

/-- Claim C1: for every requested profile name `p` and collection of known
profile names, constructing a `ProfileNotFound` error and formatting it
produces a message that names `p` and lists all known profile names in
sorted order: the displayed message is exactly the fixed template around `p`
and a ≤-sorted permutation of the known names joined by `", "`. -/
theorem Nextest.profileNotFound_display_names_profile_and_sorted_known
    (p : String) (known : List String) :
    ∃ l : List String, l.Perm known ∧ l.Sorted (· ≤ ·) ∧
      (Nextest.ProfileNotFound.new p known).display =
        "profile \x27" ++ p ++ "\x27 not found (known profiles: " ++
          String.intercalate ", " l ++ ")" ∧
      Nextest.StrContains (Nextest.ProfileNotFound.new p known).display p := by
  refine ⟨known.insertionSort (· ≤ ·), List.perm_insertionSort _ _,
    List.sorted_insertionSort _ _, rfl, ?_⟩
  exact Nextest.strContains_of_eq
    (a := "profile \x27")
    (b := "\x27 not found (known profiles: " ++
      String.intercalate ", " (known.insertionSort (· ≤ ·)) ++ ")")
    (by simp [Nextest.ProfileNotFound.display, Nextest.ProfileNotFound.new,
      String.append_assoc])

/-- Claim C4: for every test-list parse failure (an unrecognized line in the
list-mode output), the resulting `ParseTestListError::ParseLine` retains the
full captured output of the list invocation, and its displayed message
includes that full output — the rendered message is the descriptive message,
a `full output:` header, and then the entire captured output. -/
theorem Nextest.parseTestListError_parseLine_retains_full_output
    (message full_output : String) :
    (Nextest.ParseTestListError.parse_line message full_output).display =
        message ++ "\nfull output:\n" ++ full_output ∧
      Nextest.StrContains
        (Nextest.ParseTestListError.parse_line message full_output).display
        full_output := by
  refine ⟨rfl, Nextest.strContains_of_eq
    (a := message ++ "\nfull output:\n") (b := "") ?_⟩
  simp [Nextest.ParseTestListError.parse_line, Nextest.ParseTestListError.display]

/-- Claim C5: for every test binary, a list-building failure
(`ParseTestListError`) is exactly one of a launch/command failure or a parse
failure: every value of the type is in exactly one of the two classes, so the
classes are distinct and mutually exclusive. -/
theorem Nextest.parseTestListError_classes_mutually_exclusive
    (e : Nextest.ParseTestListError) :
    (e.isCommandFailure = true ∧ e.isParseFailure = false ∧
        ∃ command error, e = Nextest.ParseTestListError.Command command error) ∨
      (e.isCommandFailure = false ∧ e.isParseFailure = true ∧
        ∃ message full_output,
          e = Nextest.ParseTestListError.ParseLine message full_output) := by
  cases e with
  | Command command error =>
      exact Or.inl ⟨rfl, rfl, command, error, rfl⟩
  | ParseLine message full_output =>
      exact Or.inr ⟨rfl, rfl, message, full_output, rfl⟩

/-- Claim C8: every build-metadata-stream failure is one aggregate
`FromMessagesError` that names whether the cause was I/O (reading Cargo's
JSON messages) or package-graph querying, with the underlying error preserved
as a chained source. -/
theorem Nextest.fromMessagesError_names_cause_and_chains_source
    (e : Nextest.FromMessagesError) :
    (∃ error, e = Nextest.FromMessagesError.ReadMessages error ∧
        e.display = "error reading Cargo JSON messages" ∧
        e.source = some (Nextest.FromMessagesSource.ofRead error)) ∨
      (∃ error, e = Nextest.FromMessagesError.PackageGraph error ∧
        e.display = "error querying package graph" ∧
        e.source = some (Nextest.FromMessagesSource.ofGraph error)) := by
  cases e with
  | ReadMessages error => exact Or.inl ⟨error, rfl, rfl, rfl⟩
  | PackageGraph error => exact Or.inr ⟨error, rfl, rfl, rfl⟩

/-- Claim C9: every JUnit-writing failure surfaced as
`WriteEventError::Junit` identifies the destination file path in its
displayed message, and the original JUnit-production error is preserved as a
chained source: `source` on the `Junit` variant yields the wrapped
`JunitError`, whose own `source` yields the original `quick_junit` error. -/
theorem Nextest.writeEventError_junit_names_path_and_chains_source
    (file : Nextest.Utf8PathBuf) (qerr : Nextest.QuickJunitError) :
    (Nextest.WriteEventError.Junit file (Nextest.JunitError.new qerr)).display =
        "error writing JUnit output to " ++ file ∧
      Nextest.StrContains
        (Nextest.WriteEventError.Junit file (Nextest.JunitError.new qerr)).display
        file ∧
      (Nextest.WriteEventError.Junit file (Nextest.JunitError.new qerr)).source =
        some (Nextest.WriteEventSource.ofJunit (Nextest.JunitError.new qerr)) ∧
      (Nextest.JunitError.new qerr).source = some qerr := by
  refine ⟨rfl, Nextest.strContains_of_eq
    (a := "error writing JUnit output to ") (b := "") ?_, rfl, rfl⟩
  simp [Nextest.WriteEventError.display]

/-- Claim C10: for every `JunitError` value, its `Display` implementation
produces the empty string — the wrapper's own message carries no
information — while the underlying `quick_junit` error remains reachable
through the source chain. -/
theorem Nextest.junitError_display_empty (e : Nextest.JunitError) :
    e.display = "" ∧ e.source = some e.err :=
  ⟨rfl, rfl⟩

/-- Claim C6: for every target-runner lookup in which a matching environment
variable or configuration key is found but its value resolves to an empty
command (no whitespace-separated token at all), resolution fails with a
`BinaryNotSpecified` error carrying the key and the value that was read —
never resolving to direct invocation (`Ok None`) — and the error's displayed
message names both the key and the value. -/
theorem Nextest.targetRunner_empty_command_fails_binaryNotSpecified
    (key value : String) (h : Nextest.splitWhitespace value = []) :
    Nextest.resolve_runner (some (key, value)) =
        .error (Nextest.TargetRunnerError.BinaryNotSpecified key value) ∧
      (∀ r, Nextest.resolve_runner (some (key, value)) ≠ .ok r) ∧
      (Nextest.TargetRunnerError.BinaryNotSpecified key value).display =
        "runner \x27" ++ key ++ "\x27 = \x27" ++ value ++
          "\x27 did not contain a runner binary" ∧
      Nextest.StrContains
        (Nextest.TargetRunnerError.BinaryNotSpecified key value).display key ∧
      Nextest.StrContains
        (Nextest.TargetRunnerError.BinaryNotSpecified key value).display value := by
  have hres : Nextest.resolve_runner (some (key, value)) =
      .error (Nextest.TargetRunnerError.BinaryNotSpecified key value) := by
    simp [Nextest.resolve_runner, Nextest.parse_runner, h, Except.map]
  refine ⟨hres, ?_, rfl, ?_, ?_⟩
  · intro r hok
    rw [hres] at hok
    exact Except.noConfusion hok
  · exact Nextest.strContains_of_eq
      (a := "runner \x27")
      (b := "\x27 = \x27" ++ value ++ "\x27 did not contain a runner binary")
      (by simp [Nextest.TargetRunnerError.display, String.append_assoc])
  · exact Nextest.strContains_of_eq
      (a := "runner \x27" ++ key ++ "\x27 = \x27")
      (b := "\x27 did not contain a runner binary")
      (by simp [Nextest.TargetRunnerError.display, String.append_assoc])

/-- Witness for C6 at a concrete input: the key `CARGO_TARGET_FOO_RUNNER`
with the all-whitespace value `"  "` has no token, and resolution fails with
`BinaryNotSpecified` as the theorem states. -/
theorem Nextest.targetRunner_empty_command_fails_binaryNotSpecified_witness :
    Nextest.splitWhitespace "  " = [] ∧
      (Nextest.resolve_runner (some ("CARGO_TARGET_FOO_RUNNER", "  ")) =
          .error (Nextest.TargetRunnerError.BinaryNotSpecified
            "CARGO_TARGET_FOO_RUNNER" "  ") ∧
        (∀ r, Nextest.resolve_runner (some ("CARGO_TARGET_FOO_RUNNER", "  ")) ≠
          .ok r) ∧
        (Nextest.TargetRunnerError.BinaryNotSpecified
            "CARGO_TARGET_FOO_RUNNER" "  ").display =
          "runner \x27" ++ "CARGO_TARGET_FOO_RUNNER" ++ "\x27 = \x27" ++ "  " ++
            "\x27 did not contain a runner binary" ∧
        Nextest.StrContains
          (Nextest.TargetRunnerError.BinaryNotSpecified
            "CARGO_TARGET_FOO_RUNNER" "  ").display "CARGO_TARGET_FOO_RUNNER" ∧
        Nextest.StrContains
          (Nextest.TargetRunnerError.BinaryNotSpecified
            "CARGO_TARGET_FOO_RUNNER" "  ").display "  ") :=
  ⟨by decide,
    Nextest.targetRunner_empty_command_fails_binaryNotSpecified
      "CARGO_TARGET_FOO_RUNNER" "  " (by decide)⟩

/-- Claim C7: every configuration read or parse failure — the nextest config
(`ConfigParseError`) and the target-runner config (`FailedToReadConfig`,
`FailedToParseConfig`) — identifies the offending config file path in its
displayed message, and preserves the underlying cause as a chained source;
for `ConfigParseError` the default message is moreover independent of the
cause, which is only reachable through `source`. -/
theorem Nextest.configErrors_name_path_and_chain_source
    (path : Nextest.Utf8PathBuf) (cerr : Nextest.ConfigError)
    (ioe : Nextest.IoError) (terr : Nextest.TomlDeError) :
    (Nextest.StrContains (Nextest.ConfigParseError.new path cerr).display path ∧
        (Nextest.ConfigParseError.new path cerr).source = some cerr ∧
        ∀ cerr2, (Nextest.ConfigParseError.new path cerr).display =
          (Nextest.ConfigParseError.new path cerr2).display) ∧
      (Nextest.StrContains
          (Nextest.TargetRunnerError.FailedToReadConfig path ioe).display path ∧
        (Nextest.TargetRunnerError.FailedToReadConfig path ioe).source =
          some (Nextest.TargetRunnerSource.ofIoErr ioe)) ∧
      (Nextest.StrContains
          (Nextest.TargetRunnerError.FailedToParseConfig path terr).display path ∧
        (Nextest.TargetRunnerError.FailedToParseConfig path terr).source =
          some (Nextest.TargetRunnerSource.ofToml terr)) := by
  refine ⟨⟨?_, rfl, fun cerr2 => rfl⟩, ⟨?_, rfl⟩, ⟨?_, rfl⟩⟩
  · exact Nextest.strContains_of_eq
      (a := "failed to parse nextest config at `") (b := "`")
      (by simp [Nextest.ConfigParseError.display, Nextest.ConfigParseError.new,
        String.append_assoc])
  · exact Nextest.strContains_of_eq
      (a := "failed to read \x27") (b := "\x27: " ++ ioe.display)
      (by simp [Nextest.TargetRunnerError.display, String.append_assoc])
  · exact Nextest.strContains_of_eq
      (a := "failed to parse config \x27") (b := "\x27: " ++ terr.display)
      (by simp [Nextest.TargetRunnerError.display, String.append_assoc])

/-- Helper: a string outside the output-display variant list is rejected. -/
theorem Nextest.outputDisplay_from_str_not_mem {s : String}
    (h : s ∉ Nextest.TestOutputDisplay.variants) :
    Nextest.TestOutputDisplay.from_str s =
      .error (Nextest.TestOutputDisplayParseError.new s) := by
  unfold Nextest.TestOutputDisplay.from_str
  split_ifs with h1 h2 h3 h4
  · subst h1
    exact absurd (show "final" ∈ Nextest.TestOutputDisplay.variants by decide) h
  · subst h2
    exact absurd (show "immediate" ∈ Nextest.TestOutputDisplay.variants by decide) h
  · subst h3
    exact absurd
      (show "immediate-final" ∈ Nextest.TestOutputDisplay.variants by decide) h
  · subst h4
    exact absurd (show "never" ∈ Nextest.TestOutputDisplay.variants by decide) h
  · rfl

/-- Helper: the output-display variant list is exactly the set of parseable
strings. -/
theorem Nextest.outputDisplay_from_str_ok_iff (t : String) :
    (∃ v, Nextest.TestOutputDisplay.from_str t = .ok v) ↔
      t ∈ Nextest.TestOutputDisplay.variants := by
  unfold Nextest.TestOutputDisplay.from_str
  split_ifs with h1 h2 h3 h4
  · subst h1; exact iff_of_true ⟨_, rfl⟩ (by decide)
  · subst h2; exact iff_of_true ⟨_, rfl⟩ (by decide)
  · subst h3; exact iff_of_true ⟨_, rfl⟩ (by decide)
  · subst h4; exact iff_of_true ⟨_, rfl⟩ (by decide)
  · refine iff_of_false ?_ ?_
    · rintro ⟨v, hv⟩
      exact hv.elim
    · intro hmem
      simp only [Nextest.TestOutputDisplay.variants, List.mem_cons,
        List.mem_singleton, List.not_mem_nil] at hmem
      rcases hmem with h | h | h | h <;> simp_all

/-- Helper: a string outside the status-level variant list is rejected. -/
theorem Nextest.statusLevel_from_str_not_mem {s : String}
    (h : s ∉ Nextest.StatusLevel.variants) :
    Nextest.StatusLevel.from_str s =
      .error (Nextest.StatusLevelParseError.new s) := by
  unfold Nextest.StatusLevel.from_str
  split_ifs with h1 h2 h3 h4 h5 h6
  · subst h1
    exact absurd (show "all" ∈ Nextest.StatusLevel.variants by decide) h
  · subst h2
    exact absurd (show "fail" ∈ Nextest.StatusLevel.variants by decide) h
  · subst h3
    exact absurd (show "none" ∈ Nextest.StatusLevel.variants by decide) h
  · subst h4
    exact absurd (show "pass" ∈ Nextest.StatusLevel.variants by decide) h
  · subst h5
    exact absurd (show "retry" ∈ Nextest.StatusLevel.variants by decide) h
  · subst h6
    exact absurd (show "skip" ∈ Nextest.StatusLevel.variants by decide) h
  · rfl

/-- Helper: the status-level variant list is exactly the set of parseable
strings. -/
theorem Nextest.statusLevel_from_str_ok_iff (t : String) :
    (∃ v, Nextest.StatusLevel.from_str t = .ok v) ↔
      t ∈ Nextest.StatusLevel.variants := by
  unfold Nextest.StatusLevel.from_str
  split_ifs with h1 h2 h3 h4 h5 h6
  · subst h1; exact iff_of_true ⟨_, rfl⟩ (by decide)
  · subst h2; exact iff_of_true ⟨_, rfl⟩ (by decide)
  · subst h3; exact iff_of_true ⟨_, rfl⟩ (by decide)
  · subst h4; exact iff_of_true ⟨_, rfl⟩ (by decide)
  · subst h5; exact iff_of_true ⟨_, rfl⟩ (by decide)
  · subst h6; exact iff_of_true ⟨_, rfl⟩ (by decide)
  · refine iff_of_false ?_ ?_
    · rintro ⟨v, hv⟩
      exact hv.elim
    · intro hmem
      simp only [Nextest.StatusLevel.variants, List.mem_cons,
        List.mem_singleton, List.not_mem_nil] at hmem
      rcases hmem with h | h | h | h | h | h <;> simp_all

/-- Helper: a string outside the run-ignored variant list is rejected. -/
theorem Nextest.runIgnored_from_str_not_mem {s : String}
    (h : s ∉ Nextest.RunIgnored.variants) :
    Nextest.RunIgnored.from_str s =
      .error (Nextest.RunIgnoredParseError.new s) := by
  unfold Nextest.RunIgnored.from_str
  split_ifs with h1 h2 h3
  · subst h1
    exact absurd (show "all" ∈ Nextest.RunIgnored.variants by decide) h
  · subst h2
    exact absurd (show "default" ∈ Nextest.RunIgnored.variants by decide) h
  · subst h3
    exact absurd (show "ignored-only" ∈ Nextest.RunIgnored.variants by decide) h
  · rfl

/-- Helper: the run-ignored variant list is exactly the set of parseable
strings. -/
theorem Nextest.runIgnored_from_str_ok_iff (t : String) :
    (∃ v, Nextest.RunIgnored.from_str t = .ok v) ↔
      t ∈ Nextest.RunIgnored.variants := by
  unfold Nextest.RunIgnored.from_str
  split_ifs with h1 h2 h3
  · subst h1; exact iff_of_true ⟨_, rfl⟩ (by decide)
  · subst h2; exact iff_of_true ⟨_, rfl⟩ (by decide)
  · subst h3; exact iff_of_true ⟨_, rfl⟩ (by decide)
  · refine iff_of_false ?_ ?_
    · rintro ⟨v, hv⟩
      exact hv.elim
    · intro hmem
      simp only [Nextest.RunIgnored.variants, List.mem_cons,
        List.mem_singleton, List.not_mem_nil] at hmem
      rcases hmem with h | h | h <;> simp_all

/-- Helper: the output-display variant list is ≤-sorted. -/
theorem Nextest.outputDisplay_variants_sorted :
    Nextest.TestOutputDisplay.variants.Sorted (· ≤ ·) := by
  simp only [Nextest.TestOutputDisplay.variants, List.sorted_cons, List.mem_cons,
    List.mem_singleton, List.not_mem_nil, List.sorted_nil, forall_eq_or_imp,
    forall_eq, and_true, implies_true, false_implies, String.le_iff_toList_le]
  decide

/-- Helper: the status-level variant list is ≤-sorted. -/
theorem Nextest.statusLevel_variants_sorted :
    Nextest.StatusLevel.variants.Sorted (· ≤ ·) := by
  simp only [Nextest.StatusLevel.variants, List.sorted_cons, List.mem_cons,
    List.mem_singleton, List.not_mem_nil, List.sorted_nil, forall_eq_or_imp,
    forall_eq, and_true, implies_true, false_implies, String.le_iff_toList_le]
  decide

/-- Helper: the run-ignored variant list is ≤-sorted. -/
theorem Nextest.runIgnored_variants_sorted :
    Nextest.RunIgnored.variants.Sorted (· ≤ ·) := by
  simp only [Nextest.RunIgnored.variants, List.sorted_cons, List.mem_cons,
    List.mem_singleton, List.not_mem_nil, List.sorted_nil, forall_eq_or_imp,
    forall_eq, and_true, implies_true, false_implies, String.le_iff_toList_le]
  decide

/-- Claim C3: for every input string unrecognized by one of the
string-encoded small surfaces — taken per surface: any string outside the
output-display variant list, any string outside the status-level variant
list, any string outside the run-ignored variant list — that surface's
parsing rejects it with an error whose displayed message contains the
offending input and enumerates the complete set of valid values (the variant
list, which is exactly the set of parseable strings) joined in ≤-sorted,
deterministic order. -/
theorem Nextest.smallSurfaces_reject_unrecognized_per_surface (s : String) :
    (s ∉ Nextest.TestOutputDisplay.variants →
      Nextest.TestOutputDisplay.from_str s =
          .error (Nextest.TestOutputDisplayParseError.new s) ∧
        Nextest.StrContains (Nextest.TestOutputDisplayParseError.new s).display s ∧
        Nextest.StrContains (Nextest.TestOutputDisplayParseError.new s).display
          (String.intercalate ", " Nextest.TestOutputDisplay.variants) ∧
        Nextest.TestOutputDisplay.variants.Sorted (· ≤ ·) ∧
        (∀ t, (∃ v, Nextest.TestOutputDisplay.from_str t = .ok v) ↔
          t ∈ Nextest.TestOutputDisplay.variants)) ∧
    (s ∉ Nextest.StatusLevel.variants →
      Nextest.StatusLevel.from_str s =
          .error (Nextest.StatusLevelParseError.new s) ∧
        Nextest.StrContains (Nextest.StatusLevelParseError.new s).display s ∧
        Nextest.StrContains (Nextest.StatusLevelParseError.new s).display
          (String.intercalate ", " Nextest.StatusLevel.variants) ∧
        Nextest.StatusLevel.variants.Sorted (· ≤ ·) ∧
        (∀ t, (∃ v, Nextest.StatusLevel.from_str t = .ok v) ↔
          t ∈ Nextest.StatusLevel.variants)) ∧
    (s ∉ Nextest.RunIgnored.variants →
      Nextest.RunIgnored.from_str s =
          .error (Nextest.RunIgnoredParseError.new s) ∧
        Nextest.StrContains (Nextest.RunIgnoredParseError.new s).display s ∧
        Nextest.StrContains (Nextest.RunIgnoredParseError.new s).display
          (String.intercalate ", " Nextest.RunIgnored.variants) ∧
        Nextest.RunIgnored.variants.Sorted (· ≤ ·) ∧
        (∀ t, (∃ v, Nextest.RunIgnored.from_str t = .ok v) ↔
          t ∈ Nextest.RunIgnored.variants)) := by
  refine ⟨fun hod => ⟨Nextest.outputDisplay_from_str_not_mem hod, ?_, ?_,
      Nextest.outputDisplay_variants_sorted,
      Nextest.outputDisplay_from_str_ok_iff⟩,
    fun hsl => ⟨Nextest.statusLevel_from_str_not_mem hsl, ?_, ?_,
      Nextest.statusLevel_variants_sorted,
      Nextest.statusLevel_from_str_ok_iff⟩,
    fun hri => ⟨Nextest.runIgnored_from_str_not_mem hri, ?_, ?_,
      Nextest.runIgnored_variants_sorted,
      Nextest.runIgnored_from_str_ok_iff⟩⟩
  · exact Nextest.strContains_of_eq
      (a := "unrecognized value for test output display: ")
      (b := "\n(known values: " ++
        String.intercalate ", " Nextest.TestOutputDisplay.variants ++ ")")
      (by simp [Nextest.TestOutputDisplayParseError.display,
        Nextest.TestOutputDisplayParseError.new, String.append_assoc])
  · exact Nextest.strContains_of_eq
      (a := "unrecognized value for test output display: " ++ s ++
        "\n(known values: ")
      (b := ")")
      (by simp [Nextest.TestOutputDisplayParseError.display,
        Nextest.TestOutputDisplayParseError.new, String.append_assoc])
  · exact Nextest.strContains_of_eq
      (a := "unrecognized value for status-level: ")
      (b := "\n(known values: " ++
        String.intercalate ", " Nextest.StatusLevel.variants ++ ")")
      (by simp [Nextest.StatusLevelParseError.display,
        Nextest.StatusLevelParseError.new, String.append_assoc])
  · exact Nextest.strContains_of_eq
      (a := "unrecognized value for status-level: " ++ s ++ "\n(known values: ")
      (b := ")")
      (by simp [Nextest.StatusLevelParseError.display,
        Nextest.StatusLevelParseError.new, String.append_assoc])
  · exact Nextest.strContains_of_eq
      (a := "unrecognized value for run-ignored: ")
      (b := "\n(known values: " ++
        String.intercalate ", " Nextest.RunIgnored.variants ++ ")")
      (by simp [Nextest.RunIgnoredParseError.display,
        Nextest.RunIgnoredParseError.new, String.append_assoc])
  · exact Nextest.strContains_of_eq
      (a := "unrecognized value for run-ignored: " ++ s ++ "\n(known values: ")
      (b := ")")
      (by simp [Nextest.RunIgnoredParseError.display,
        Nextest.RunIgnoredParseError.new, String.append_assoc])

/-- Witness for C3 at concrete per-surface inputs, including strings valid
for one surface but unrecognized by another: `bogus` is unrecognized
everywhere; `final` is a valid output-display value yet rejected by the
status-level and run-ignored parsers; `all` is a valid status-level value
yet rejected by the output-display parser. -/
theorem Nextest.smallSurfaces_reject_unrecognized_per_surface_witness :
    ("bogus" ∉ Nextest.TestOutputDisplay.variants ∧
      Nextest.TestOutputDisplay.from_str "bogus" =
        .error (Nextest.TestOutputDisplayParseError.new "bogus")) ∧
    ("final" ∉ Nextest.StatusLevel.variants ∧
      Nextest.StatusLevel.from_str "final" =
        .error (Nextest.StatusLevelParseError.new "final")) ∧
    ("final" ∉ Nextest.RunIgnored.variants ∧
      Nextest.RunIgnored.from_str "final" =
        .error (Nextest.RunIgnoredParseError.new "final")) ∧
    ("all" ∉ Nextest.TestOutputDisplay.variants ∧
      Nextest.TestOutputDisplay.from_str "all" =
        .error (Nextest.TestOutputDisplayParseError.new "all")) :=
  ⟨⟨by decide,
      ((Nextest.smallSurfaces_reject_unrecognized_per_surface "bogus").1
        (by decide)).1⟩,
    ⟨by decide,
      ((Nextest.smallSurfaces_reject_unrecognized_per_surface "final").2.1
        (by decide)).1⟩,
    ⟨by decide,
      ((Nextest.smallSurfaces_reject_unrecognized_per_surface "final").2.2
        (by decide)).1⟩,
    ⟨by decide,
      ((Nextest.smallSurfaces_reject_unrecognized_per_surface "all").1
        (by decide)).1⟩⟩

/-- Claim C2: for every malformed partition specification string (one the
grammar `shard-index/shard-count` does not accept), construction fails with a
`PartitionerBuilderParseError` whose displayed message names the expected
grammar and the offending input, and no partitioner is produced — in
particular none that would include everything or nothing. -/
theorem Nextest.partitionerBuilder_malformed_fails_naming_grammar_and_input
    (s : String) (h : Nextest.parsePartitionSpec s = none) :
    ∃ e, Nextest.PartitionerBuilder.from_str s = .error e ∧
      e.expected_format = some Nextest.partitionExpectedFormat ∧
      Nextest.StrContains e.display Nextest.partitionExpectedFormat ∧
      Nextest.StrContains e.display s ∧
      ∀ pb, Nextest.PartitionerBuilder.from_str s ≠ .ok pb := by
  refine ⟨Nextest.PartitionerBuilderParseError.new
      (some Nextest.partitionExpectedFormat)
      ("invalid partition specification \x27" ++ s ++ "\x27"),
    ?_, rfl, ?_, ?_, ?_⟩
  · simp [Nextest.PartitionerBuilder.from_str, h]
  · exact Nextest.strContains_of_eq
      (a := "partition must be in the format \"")
      (b := "\":\n" ++ ("invalid partition specification \x27" ++ s ++ "\x27"))
      (by simp only [Nextest.PartitionerBuilderParseError.display,
        Nextest.PartitionerBuilderParseError.new, String.append_assoc])
  · exact Nextest.strContains_of_eq
      (a := "partition must be in the format \"" ++
        Nextest.partitionExpectedFormat ++ "\":\n" ++
        "invalid partition specification \x27")
      (b := "\x27")
      (by simp only [Nextest.PartitionerBuilderParseError.display,
        Nextest.PartitionerBuilderParseError.new, String.append_assoc])
  · intro pb hok
    simp [Nextest.PartitionerBuilder.from_str, h] at hok

/-- Witness for C2 at the concrete malformed input `oops` (no `/`-separated
numeric fields): parsing yields no partition spec, and construction fails as
the theorem states. -/
theorem Nextest.partitionerBuilder_malformed_fails_witness :
    Nextest.parsePartitionSpec "oops" = none ∧
      (∃ e, Nextest.PartitionerBuilder.from_str "oops" = .error e ∧
        e.expected_format = some Nextest.partitionExpectedFormat ∧
        Nextest.StrContains e.display Nextest.partitionExpectedFormat ∧
        Nextest.StrContains e.display "oops" ∧
        ∀ pb, Nextest.PartitionerBuilder.from_str "oops" ≠ .ok pb) :=
  ⟨by decide,
    Nextest.partitionerBuilder_malformed_fails_naming_grammar_and_input "oops"
      (by decide)⟩
